import Mathlib

/- A verification development for the Yango car-owner acquisition bot
   (src/main.py): the content tree, the render engine, the navigation
   router with its callback parsing, per-user checklist state, the
   dedup guard on file callbacks, and the single-instance lock guard.
   Python dicts keyed by user id are modelled as total functions with
   the dict-get default; the processed-callback set is modelled as a
   duplicate-free list; transport calls become explicit effects. -/

namespace YangoBot

/-- Link to an external resource (class Link in main.py). -/
structure Link where
  title : String
  url : String
deriving DecidableEq

/-- Reference to a local file (class FileRef); the path is kept as a string. -/
structure FileRef where
  title : String
  path : String
deriving DecidableEq

/-- One node of the content tree (class MenuNode). -/
structure MenuNode where
  id : String
  title : String
  text : String
  parent_id : Option String := none
  children : List (String × String) := []
  links : List Link := []
  files : List FileRef := []
deriving DecidableEq

/-- An inline keyboard button (aiogram InlineKeyboardButton). -/
structure InlineKeyboardButton where
  text : String
  callback_data : Option String := none
  url : Option String := none
deriving DecidableEq

/-- An inline keyboard (aiogram InlineKeyboardMarkup). -/
structure InlineKeyboardMarkup where
  inline_keyboard : List (List InlineKeyboardButton)
deriving DecidableEq

/-- Outward-visible actions a handler performs on the transport. -/
inductive Effect where
  | ack : Effect
  | ackAlert : String → Effect
  | editMessage : String → InlineKeyboardMarkup → Effect
  | sendMessage : String → InlineKeyboardMarkup → Effect
  | sendDocument : String → String → Effect
  | log : String → Effect
deriving DecidableEq

/-- Per-user checklist state `_checklist_state`: user id → item id → checked.
Python stores dicts of dicts read through `.get(item_id, False)`; we model
the store as the total function those reads observe. -/
def ChecklistStore : Type := Int → String → Bool

/-- The mutable in-memory state of the bot process. -/
structure BotState where
  processedMessages : List String
  processedCallbacks : List String
  checklist : ChecklistStore
def CHECKLIST_ITEMS : List (String × List (String × String)) := [
  ("Market & model", [
    ("market_demand", "Market demand validated"),
    ("partner_model", "Partner model selected"),
    ("unit_economics", "Unit economics calculated"),
    ("target_regions", "Target regions defined")
  ]),
  ("Ops & ownership", [
    ("ops_owner", "Ops owner assigned"),
    ("partner_contact", "Partner contact established"),
    ("call_center_ready", "Call center ready"),
    ("escalation_defined", "Escalation process defined")
  ]),
  ("Contracts & legal", [
    ("contract_template", "Contract template ready"),
    ("partner_alignment", "Partner alignment confirmed"),
    ("legal_approval", "Legal approval obtained"),
    ("signing_process", "Signing process tested")
  ]),
  ("Lead processing & tracking", [
    ("tracker_created", "Lead tracker created"),
    ("statuses_configured", "Statuses configured"),
    ("routing_tested", "Routing flow tested"),
    ("no_duplicates", "No duplicate handling verified")
  ]),
  ("Acquisition & budgets", [
    ("channels_approved", "Channels approved"),
    ("landing_validated", "Landing page validated"),
    ("whatsapp_active", "WhatsApp flow active"),
    ("budgets_approved", "Budgets approved"),
    ("tracking_checked", "Tracking verified")
  ]),
  ("Reporting & monitoring", [
    ("kpi_defined", "KPIs defined"),
    ("reporting_template", "Reporting template ready"),
    ("cadence_agreed", "Reporting cadence agreed"),
    ("first_report_set", "First report scheduled")
  ]),
  ("Go-live decision", [
    ("all_checks_done", "All checks completed"),
    ("launch_date_confirmed", "Launch date confirmed"),
    ("ready_to_scale", "Ready to scale")
  ])
]

def menuList : List MenuNode := [
  { id := "root",
    title := "Yango Car Owner Acquisition Assistant",
    text := "<b>Yango Car Owner Acquisition Assistant</b>\n\nSelect a section:",
    parent_id := none,
    children := [("How it works", "what_is_coa"), ("🚀 Start launch", "start_launch"), ("💬 Communication flows", "flows"), ("📁 Materials & templates", "materials"), ("📊 Reports & KPI", "reports"), ("❓ FAQ", "faq"), ("👥 Contacts", "contacts")],
    links := [],
    files := [] },
  { id := "what_is_coa",
    title := "How it works",
    text := "<b>✅ How it works</b>\n\n<b>Description:</b>\nCar Owner Acquisition is a program that helps grow supply by bringing additional cars into the Yango ecosystem through individual car owners.\n\nCar owners do not drive themselves.\nInstead, they rent out their vehicles and earn regular income, while Yango partners manage drivers and daily operations.\n\n<b>How it works in practice:</b>\n\n1. We attract car owners through marketing campaigns (performance, landing pages, WhatsApp, offline channels).\n\n2. Car owners leave a lead via a landing page or WhatsApp.\n\n3. Leads are processed and qualified by local teams or a call center.\n\n4. Car owners sign a contract with a Yango partner.\n\n5. The partner assigns a driver and manages the vehicle.\n\n6. The car goes online, completes trips and generates income.\n\n7. Car owners receive regular payouts.\n\n<b>Why this program is important:</b>\n\n• Increases total car supply in the market\n• Unlocks cars from owners who don\x27t want to drive\n• Supports faster driver onboarding\n• Enables scalable and predictable market growth\n\n<b>How car owners are usually acquired:</b>\n\n• Performance marketing (Meta, Google, TikTok)\n• Landing pages (recommended)\n• WhatsApp (early-stage or temporary)\n• Offline channels (OOH, flyers, QR codes)\n• In-app placements (where available)\n\n<b>What to do next:</b>\n\nIf you are launching this stream for the first time, start with Step 1 — Market & Model.\n\nIf you already have experience, you can jump directly to the relevant steps.",
    parent_id := some "root",
    children := [],
    links := [],
    files := [] },
  { id := "start_launch",
    title := "Start launch",
    text := "<b>🚀 Start launch</b>\n\nThis section explains what the Car Owner Acquisition stream is and how to launch it step by step.\n\nThe Car Owner Acquisition program allows car owners to earn income by renting their vehicles to Yango partners, without driving themselves.\n\nThis bot guides you through all key steps required to launch the stream in a new market — from market validation and operational readiness to acquisition channels, lead processing and reporting.\n\nUse the steps below in order. Each step builds on the previous one and helps ensure a smooth and scalable launch.",
    parent_id := some "root",
    children := [("Step 1 — Market & Model", "start_step_1"), ("Step 2 — Ops readiness", "start_step_2"), ("Step 3 — Acquisition channels", "start_step_3"), ("Step 4 — Lead processing & reporting", "start_step_4"), ("Step 5 — Go live checklist", "start_step_7")],
    links := [],
    files := [] },
  { id := "start_step_1",
    title := "Step 1 — Market & Model",
    text := "<b>Step 1 — Market & Model</b>\n\nThis step helps evaluate whether the Car Owner Acquisition stream makes sense to launch in a specific market and which model should be used.\n\nThe goal of this step is to answer three key questions:\n• Is there demand from car owners to rent out their vehicles?\n• Is the local market and regulation suitable for this model?\n• Which operational setup will work best in this country?\n\nThis analysis must be completed before any operational or marketing launch.",
    parent_id := some "start_launch",
    children := [("Market demand & behavior", "start_step_1_market_demand"), ("Unit economics & financial model", "start_step_1_financial_model"), ("Partner landscape", "start_step_1_partner_landscape"), ("Go / No-Go decision", "start_step_1_launch_decision")],
    links := [],
    files := [] },
  { id := "start_step_1_market_demand",
    title := "Market demand & behavior",
    text := "<b>Market demand & behavior</b>\n\nBefore launch, it is critical to understand how common it is for car owners to rent out their vehicles in the local market.\n\n<b>Key questions to analyze:</b>\n• Is car rental / car leasing common among individuals?\n• Do people already rent cars to drivers or fleets?\n• Are there informal vehicle owners or small fleet owners?\n• Is there trust in third-party vehicle management?\n\n<b>Signals that support launch:</b>\n• Existing informal rental market\n• Presence of small fleets (5–20 cars)\n• Car owners looking for passive income\n• High driver demand with low car supply\n\n<b>Red flags:</b>\n• Strong cultural resistance to renting out cars\n• Legal or insurance restrictions\n• High risk of fraud or vehicle damage",
    parent_id := some "start_step_1",
    children := [],
    links := [],
    files := [] },
  { id := "start_step_1_financial_model",
    title := "Unit economics & financial model",
    text := "<b>Unit economics & financial model</b>\n\nA basic unit economics model must be prepared before launch.\n\n<b>The model helps answer:</b>\n• Can car owners earn attractive weekly income?\n• Can partners operate the model profitably?\n• Are commissions, fees and costs sustainable?\n\n<b>This model should include:</b>\n• Average trips per car per day\n• Revenue per trip\n• Driver costs and partner commission\n• Owner payout\n• Platform commission\n\n<b>Unit economics template:</b>\nhttps://docs.google.com/spreadsheets/d/13hyO6Z6D7KxN9CH9llOW9vNhtyAMmATjcp7qklyCdb0/edit?gid=1452383912#gid=1452383912\n\n⚠ <b>NOTE</b>\nThis template shows a base example only.\nFinal assumptions must be validated with:\n• Local operations\n• Partner\n• Finance team (if needed)",
    parent_id := some "start_step_1",
    children := [],
    links := [⟨"Unit economics template", "https://docs.google.com/spreadsheets/d/13hyO6Z6D7KxN9CH9llOW9vNhtyAMmATjcp7qklyCdb0/edit?gid=1452383912#gid=1452383912"⟩],
    files := [] },
  { id := "start_step_1_partner_landscape",
    title := "Partner landscape",
    text := "<b>Partner landscape</b>\n\nCar Owner Acquisition requires reliable local partners who can manage vehicles and drivers on the ground.\n\n<b>Before launch, assess:</b>\n• Existing fleet partners and their size\n• Operational maturity (driver management, payouts, reporting)\n• Willingness to manage third-party vehicles\n• Contractual readiness\n\n<b>Typical partner profiles:</b>\n• Fleet owners with 10+ vehicles\n• Vehicle management companies\n• Experienced driver partners scaling into fleets",
    parent_id := some "start_step_1",
    children := [],
    links := [],
    files := [] },
  { id := "start_step_1_launch_decision",
    title := "Go / No-Go decision",
    text := "<b>Go / No-Go decision</b>\n\nAfter completing market and financial analysis, the local and central teams should make a clear launch decision.\n\n<b>Launch is recommended if:</b>\n• There is proven owner demand\n• Unit economics are positive\n• At least one operational partner is ready\n\nIf these conditions are not met, the launch should be postponed or limited to a pilot.",
    parent_id := some "start_step_1",
    children := [],
    links := [],
    files := [] },
  { id := "start_step_2",
    title := "Step 2 — Ops readiness",
    text := "<b>Step 2 — Ops readiness</b>\n\nThis step ensures that all operational components are ready before starting any acquisition activity.\n\nOps readiness is critical: launching marketing without operational setup leads to lost leads, poor partner experience and weak results.\n\nThis step must be completed before launching landing pages, WhatsApp flows or offline acquisition.",
    parent_id := some "start_launch",
    children := [("Local ops & ownership", "start_step_2_ops_team_setup"), ("Scouts / call center readiness", "start_step_2_scouts_call_center"), ("Contracts & legal alignment", "start_step_2_contracts_legal")],
    links := [],
    files := [] },
  { id := "start_step_2_ops_team_setup",
    title := "Local ops & ownership",
    text := "<b>Local ops & ownership</b>\n\nClear ownership on the local side is mandatory.\n\n<b>Before launch, define:</b>\n• Who owns the Car Owner stream locally\n• Who manages partners\n• Who owns the lead tracker\n• Who is responsible for reporting and follow-ups\n\nThere must be a single ops owner responsible for the end-to-end flow.",
    parent_id := some "start_step_2",
    children := [],
    links := [],
    files := [] },
  { id := "start_step_2_scouts_call_center",
    title := "Scouts / call center readiness",
    text := "<b>Scouts / call center readiness</b>\n\nLeads must be contacted quickly and consistently.\n\n<b>Before launch, ensure:</b>\n• Scouts or call center are assigned\n• They are trained on the program logic\n• Lead handling scripts are approved\n• SLA for first contact is defined\n\n<b>Recommended:</b>\n• First contact within 24 hours\n• Minimum 3 contact attempts per lead\n\n<b>Example lead handling script & qualification template:</b>\nhttps://docs.google.com/spreadsheets/d/1Zj2345sqJvAdQ_jZ-9-RHe86y-w83bPpl6VKMLzn5Zg/edit?resourcekey=&gid=887705287#gid=887705287",
    parent_id := some "start_step_2",
    children := [],
    links := [⟨"Lead handling script & qualification template", "https://docs.google.com/spreadsheets/d/1Zj2345sqJvAdQ_jZ-9-RHe86y-w83bPpl6VKMLzn5Zg/edit?resourcekey=&gid=887705287#gid=887705287"⟩],
    files := [] },
  { id := "start_step_2_contracts_legal",
    title := "Contracts & legal alignment",
    text := "<b>Contracts & legal alignment</b>\n\nContractual setup must be ready before onboarding car owners.\n\n<b>Ensure that:</b>\n• A local contract template exists\n• Contract terms are aligned with partner model\n• Responsibilities and payouts are clearly defined\n\n<b>Example contracts from other markets:</b>\n• Zambia (EN)\n• Angola (PT)\n• Cameroon (FR)\n\n<b>Example legal approval ticket (for reference):</b>\nhttps://st.yandex-team.ru/YLEGAL-16069?from=bell#692ec1649f4c341e3b94483b\n\n⚠ <b>NOTE</b>\nThese contracts are examples only.\nThey cannot be reused directly and must always be:\n• adapted to local legislation\n• reviewed with the partner\n• validated by the legal department",
    parent_id := some "start_step_2",
    children := [],
    links := [⟨"Example legal approval ticket", "https://st.yandex-team.ru/YLEGAL-16069?from=bell#692ec1649f4c341e3b94483b"⟩],
    files := [⟨"Contract Eng (Zambia)", "resources/contracts/Contract Eng (Zambia).docx"⟩, ⟨"Contract Portu (Angola)", "resources/contracts/Contract Portu (Angola).pdf"⟩, ⟨"Contract FR (Cameroon)", "resources/contracts/Contract FR (Cameroon).pdf"⟩] },
  { id := "start_step_2_lead_tracker_setup",
    title := "Lead tracker setup",
    text := "<b>Lead tracker setup</b>\n\nThe lead tracker is the single source of truth for all incoming leads.\n\nEach market must use a unified tracker structure to ensure comparable reporting and correct performance analysis.\n\n<b>Minimum required fields:</b>\n• Lead ID\n• Source\n• Date created\n• Contact status\n• Qualification status\n• Partner assigned\n• Contract status\n• Converted car (Yes / No)\n\n<b>Example tracker template:</b>\nhttps://docs.google.com/spreadsheets/d/13hyO6Z6D7KxN9CH9llOW9vNhtyAMmATjcp7qklyCdb0/edit?gid=1452383912#gid=1452383912\n\n⚠ <b>NOTE</b>\nTracker structure can be adapted locally, but core fields must not be removed.",
    parent_id := some "start_step_4",
    children := [],
    links := [⟨"Example tracker template", "https://docs.google.com/spreadsheets/d/13hyO6Z6D7KxN9CH9llOW9vNhtyAMmATjcp7qklyCdb0/edit?gid=1452383912#gid=1452383912"⟩],
    files := [] },
  { id := "start_step_2_ops_go_live_check",
    title := "Go-live readiness check",
    text := "<b>Go-live readiness check</b>\n\nBefore starting acquisition, confirm that:\n• Ops owner is assigned\n• Partner is trained and ready\n• Contracts are approved\n• Lead tracker is live\n• Scouts / call center are active\n\nOnly after this confirmation the market is ready to move to acquisition channels.",
    parent_id := some "start_step_7",
    children := [],
    links := [],
    files := [] },
  { id := "start_step_3",
    title := "Step 3 — Acquisition channels",
    text := "<b>Step 3 — Acquisition channels</b>\n\nThe Car Owner acquisition stream uses two main channels:\n1) Landing page acquisition\n2) WhatsApp acquisition\n\nBoth channels must follow a unified, consistent structure across all markets to ensure high lead quality, proper routing, and predictable conversion rates.\n\n────────────────────────────────────────────────────────────────\n<b>LANDING CHANNEL</b>\n────────────────────────────────────────────────────────────────\n\nLanding pages are one of the main acquisition channels in the Car Owner program. They must follow a unified structure across all markets to ensure consistent lead quality and correct data collection.\n\n<b>Landing templates include:</b>\n• Required sections and visual structure\n• Mandatory fields for data collection\n• Partner information blocks\n• Clear routing for incoming leads (landing → tracker → partner / call center)\n\n<b>The landing creation process always includes:</b>\n1. Filling the Landing Data Sheet\n2. Sharing brand assets (logos, visuals, colors)\n3. Providing all local text (titles, descriptions, benefits)\n4. Adding partner details if applicable\n5. Submitting a development request (ticket) to the web team — <a href=\"https://st.yandex-team.ru/YANGOWEB-484\">YANGOWEB-484</a>\n\n<b>Landing Data Sheet</b> (must be filled before development):\nhttps://docs.google.com/spreadsheets/d/10AaTXOAnVByDSS3FKISnkxXkqutKzbq1qkXrspyQKj0/edit?gid=288663658#gid=288663658\n\n<b>Examples of working landings:</b>\n• Zambia — https://yango.com/en_zm/carinvest/\n• Angola — https://yango.com/en_ao/carinvest/\n• Cameroon — https://yango.com/en_cm/carinvest/\n• Ethiopia — https://yango.com/en_et/carinvest/\n\n⚠ <b>NOTE</b>\nLanding content must always be validated by:\n• Local operations\n• Marketing team\n• Legal department\nespecially if the landing contains any revenue claims or commitments.\n\n────────────────────────────────────────────────────────────────\n<b>WHATSAPP CHANNEL</b>\n────────────────────────────────────────────────────────────────\n\nWhatsApp is the second major acquisition channel used in markets where:\n• Landing conversion is low,\n• Internet penetration is unstable,\n• People prefer conversational onboarding.\n\n<b>WhatsApp leads typically have:</b>\n• Higher intent,\n• Better response rates,\n• Faster qualification.\n\n<b>WhatsApp flow includes:</b>\n• Auto-greeting message\n• Initial qualification questions\n• Manual follow-up by operations or a partner\n• Routing of qualified leads to a partner or a call-center agent\n\n<b>Example WhatsApp greeting message:</b>\n\"Hi! 👋 Thanks for your interest in earning with Yango.\nIf you have a car, you can rent it to a Yango partner and receive weekly income — without driving yourself.\nPlease send us:\n• Number of cars\n• Make/model\n• Year of manufacture\n• Mileage\nYou can also read more here: https://yango.com/en_zm/carinvest/\"\n\n<b>WhatsApp scripts & qualification sheets:</b>\nhttps://docs.google.com/spreadsheets/d/1Zj2345sqJvAdQ_jZ-9-RHe86y-w83bPpl6VKMLzn5Zg/edit?resourcekey=&gid=887705287#gid=887705287\n\n⚠ <b>NOTE</b>\nAll WhatsApp scripts must also be validated with:\n• Local operations\n• Marketing\n• Legal (if scripts mention revenue or promises)",
    parent_id := some "start_launch",
    children := [],
    links := [⟨"Template for launch of landing", "https://docs.google.com/spreadsheets/d/10AaTXOAnVByDSS3FKISnkxXkqutKzbq1qkXrspyQKj0/edit?gid=288663658#gid=288663658"⟩, ⟨"🇿🇲 Zambia landing", "https://yango.com/en_zm/carinvest/"⟩, ⟨"🇦🇴 Angola landing", "https://yango.com/en_ao/carinvest/"⟩, ⟨"🇨🇲 Cameroon landing", "https://yango.com/en_cm/carinvest/"⟩, ⟨"🇪🇹 Ethiopia landing", "https://yango.com/en_et/carinvest/"⟩, ⟨"WhatsApp scripts & qualification sheets", "https://docs.google.com/spreadsheets/d/1Zj2345sqJvAdQ_jZ-9-RHe86y-w83bPpl6VKMLzn5Zg/edit?resourcekey=&gid=887705287#gid=887705287"⟩],
    files := [] },
  { id := "start_step_4",
    title := "Step 4 — Lead processing & reporting",
    text := "<b>Step 4 — Lead processing & reporting</b>\n\nThis step defines how incoming leads are collected, processed, tracked and reported.\n\nCorrect lead processing is critical to avoid lead loss, delays and data inconsistency between marketing, operations and partners.\n\nThis step must be completed before scaling acquisition channels or launching performance campaigns.",
    parent_id := some "start_launch",
    children := [("Lead intake & routing", "start_step_4_lead_intake_routing"), ("Lead tracker setup", "start_step_2_lead_tracker_setup"), ("Weekly reporting & KPI", "start_step_4_weekly_reporting_kpi")],
    links := [],
    files := [] },
  { id := "start_step_4_lead_intake_routing",
    title := "Lead intake & routing",
    text := "<b>Lead intake & routing</b>\n\nAll incoming leads must follow a clear and unified routing flow to ensure fast processing and correct ownership.\n\n<b>Typical lead sources:</b>\n• Landing pages\n• WhatsApp flows\n• Performance campaigns\n• Offline acquisition (OOH, scouts)\n\n<b>Standard routing flow:</b>\nLanding / Channel → Lead tracker → Call center / Partner → Contract signing\n\n<b>Ensure that:</b>\n• Each lead source is clearly labeled\n• Responsibility for first contact is defined\n• SLA for first contact is agreed with the partner",
    parent_id := some "start_step_4",
    children := [],
    links := [],
    files := [] },
  { id := "start_step_4_weekly_reporting_kpi",
    title := "Weekly reporting & KPI",
    text := "<b>Weekly reporting & KPI</b>\n\nLocal teams are required to share weekly lead performance reports to track funnel health and partner efficiency.\n\n<b>Typical weekly report format:</b>\n\nTotal leads: XXX\nLeads contacted (called): XXX\nLeads with no response: XXX\nHot leads (interested in the program): XXX\nLeads forwarded to partner: XXX\nLeads in contract signing process: XXX\nLeads with signed contracts: XXX\nConverted cars: XXX\n\nReports are usually shared once per week via Telegram using data from the lead tracker.\n\n<b>Ensure that:</b>\n• Reporting cadence is agreed\n• One owner is responsible for sending reports\n• Numbers are aligned with the tracker",
    parent_id := some "start_step_4",
    children := [],
    links := [],
    files := [] },
  { id := "start_step_5",
    title := "Step 5 — Partner activation",
    text := "<b>Step 5 — Partner activation</b>\n\n<b>Main KPIs to track:</b>\n• CPL (Cost Per Lead)\n• CPA (Cost Per Activation)\n• Conversion rate (Leads → Contracts)\n• Retention (2/4/8 weeks)\n\n<b>Country benchmarks:</b>\nTarget ranges based on Zambia, Angola, Cameroon, Ethiopia:\n• CPL: $5–15\n• CPA: $50–150\n• Conversion rate: 15–30%\n• Retention (4 weeks): 60–80%",
    parent_id := some "start_launch",
    children := [],
    links := [],
    files := [] },
  { id := "start_step_6",
    title := "Step 6 — Reporting & KPI",
    text := "<b>Step 6 — Reporting & KPI</b>\n\n<b>KPI tracker:</b>\nUse the tracker below to monitor weekly performance.\n\n<b>Weekly report template:</b>\nStructure: inputs (leads, contracts, active cars, ad spend) → outputs (CPL, CPA, conversion, retention, narrative).\n\n<b>KPI definitions & formulas:</b>\n• CPL = Total ad spend / Number of leads\n• CPA = Total ad spend / Number of activated cars\n• Conversion rate = (Activated cars / Leads) × 100%\n• Retention = % of cars still active after N weeks",
    parent_id := some "start_launch",
    children := [],
    links := [⟨"KPI tracker (Sheet)", "https://docs.google.com/spreadsheets/d/1Zj2345sqJvAdQ_jZ-9-RHe86y-w83bPpl6VKMLzn5Zg/edit?resourcekey=&gid=2116500930#gid=2116500930"⟩, ⟨"Lead tracker (Sheet)", "https://docs.google.com/spreadsheets/d/1WhA1pt725L9uGHG6pDDRx5iFxSz2xPRuGJJGIPsAoAA/edit"⟩],
    files := [] },
  { id := "start_step_7",
    title := "Step 5 — Go live checklist",
    text := "<b>Step 5 — Go-live checklist</b>\n\nMark each item as completed before go-live.",
    parent_id := some "start_launch",
    children := [],
    links := [],
    files := [] },
  { id := "materials",
    title := "Materials & templates",
    text := "<b>📁 Materials & templates</b>\n\nHere you can find all core templates and materials used across countries.",
    parent_id := some "root",
    children := [("Contracts", "materials_contracts"), ("Landing templates", "materials_landing"), ("Marketing materials", "materials_marketing"), ("Financial model templates", "materials_finmodel")],
    links := [],
    files := [] },
  { id := "materials_contracts",
    title := "Contracts",
    text := "<b>Contracts</b>\n\nBelow are official Yango Car Owner contract templates from different countries (Zambia, Cameroon, Angola). These files are provided as <i>examples</i> to support the preparation process.\n\n⚠ <b>IMPORTANT</b>\nThese contracts CANNOT be used as-is.\nBefore applying any contract in your market, you MUST:\n• Review and align the contract with your partner\n• Verify all clauses and local requirements\n• Get official approval from the Legal department\n\nThese templates are only for reference to help you understand typical contract structure and required elements.",
    parent_id := some "materials",
    children := [],
    links := [],
    files := [⟨"Contract Eng (Zambia)", "resources/contracts/Contract Eng (Zambia).docx"⟩, ⟨"Contract Portu (Angola)", "resources/contracts/Contract Portu (Angola).pdf"⟩, ⟨"Contract FR (Cameroon)", "resources/contracts/Contract FR (Cameroon).pdf"⟩] },
  { id := "materials_landing",
    title := "Landing templates",
    text := "<b>Landing templates</b>\n\nStandard templates for creating car owner acquisition landing pages. These templates define required sections, data fields, and visual structure.\n\n<b>Template for launch of landing:</b>\nhttps://docs.google.com/spreadsheets/d/10AaTXOAnVByDSS3FKISnkxXkqutKzbq1qkXrspyQKj0/edit?gid=288663658#gid=288663658\n\n<b>Examples of existing landings:</b>\n• Zambia — https://yango.com/en_zm/carinvest/\n• Angola — https://yango.com/en_ao/carinvest/\n• Cameroon — https://yango.com/en_cm/carinvest/\n• Ethiopia — https://yango.com/en_et/carinvest/\n\n⚠ <b>NOTE</b>\nLanding content must always be validated by:\n• Local operations\n• Marketing team\n• Legal department (especially if text includes commitments or revenue claims)",
    parent_id := some "materials",
    children := [],
    links := [⟨"Template for launch of landing", "https://docs.google.com/spreadsheets/d/10AaTXOAnVByDSS3FKISnkxXkqutKzbq1qkXrspyQKj0/edit?gid=288663658#gid=288663658"⟩, ⟨"🇿🇲 Zambia landing", "https://yango.com/en_zm/carinvest/"⟩, ⟨"🇦🇴 Angola landing", "https://yango.com/en_ao/carinvest/"⟩, ⟨"🇨🇲 Cameroon landing", "https://yango.com/en_cm/carinvest/"⟩, ⟨"🇪🇹 Ethiopia landing", "https://yango.com/en_et/carinvest/"⟩],
    files := [] },
  { id := "materials_marketing",
    title := "Marketing materials",
    text := "<b>Marketing materials</b>\n\nThis section contains all marketing creatives and resources used for promoting the Car Owner Acquisition program across different markets. These include performance banners, WhatsApp visuals, social media creatives, OOH formats, flyers, printed materials, and in-app screens.\n\nSelect a category to view creatives:\n\n⚠ <b>NOTE</b>\nAll creatives must be validated by the central marketing team before use to ensure:\n• correct branding\n• consistency of communication\n• compliance with local regulations",
    parent_id := some "materials",
    children := [("📊 Performance creatives", "materials_marketing_perf"), ("🪧 OOH materials", "materials_marketing_ooh"), ("📄 Flyers & Printed materials", "materials_marketing_offline"), ("📱 In-app creatives", "materials_marketing_inapp")],
    links := [],
    files := [] },
  { id := "materials_marketing_perf",
    title := "Performance creatives",
    text := "<b>Performance creatives</b>\n\nPerformance banners, WhatsApp visuals, and social media creatives for all countries.\n\nSelect a country or general resources:",
    parent_id := some "materials_marketing",
    children := [("🇦🇴 Angola", "materials_marketing_perf_ao"), ("🇧🇼 Botswana", "materials_marketing_perf_bw"), ("🇿🇲 Zambia", "materials_marketing_perf_zm"), ("🇨🇬 Congo", "materials_marketing_perf_cg"), ("📦 Performance sets (Dec 2024)", "materials_marketing_perf_sets"), ("📚 Performance text library", "materials_marketing_perf_texts")],
    links := [],
    files := [] },
  { id := "materials_marketing_perf_ao",
    title := "Angola – Performance creatives",
    text := "<b>Angola – Performance creatives</b>\n\nPerformance banners and creatives for Angola market.",
    parent_id := some "materials_marketing_perf",
    children := [],
    links := [⟨"Angola – WA & performance", "https://www.figma.com/design/GJ7bVwfVs0zjD84ZqmPohO/205-Perf-campaign_Luanda_Car-owners-acquisition"⟩, ⟨"Angola – general performance", "https://www.figma.com/design/ztTECUyoC4QdQIRcwgd0st/Yango-Angola"⟩],
    files := [] },
  { id := "materials_marketing_perf_bw",
    title := "Botswana – Performance creatives",
    text := "<b>Botswana – Performance creatives</b>\n\nPerformance banners and creatives for Botswana market.",
    parent_id := some "materials_marketing_perf",
    children := [],
    links := [⟨"Botswana – performance", "https://www.figma.com/design/Y4AVT4J5EefTNzA1H3eZqf/Zambia?node-id=0-1&p=f&t=PFNaU7utDqCdNHXJ-0"⟩],
    files := [] },
  { id := "materials_marketing_perf_zm",
    title := "Zambia – Performance creatives",
    text := "<b>Zambia – Performance creatives</b>\n\nPerformance banners and creatives for Zambia market.",
    parent_id := some "materials_marketing_perf",
    children := [],
    links := [⟨"Zambia – performance (TikTok + Instagram)", "https://www.figma.com/design/Y4AVT4J5EefTNzA1H3eZqf/Zambia?node-id=3-877&p=f&t=DboudQySYWVFZzdJ-0"⟩, ⟨"Zambia – performance ad texts", "https://docs.google.com/spreadsheets/d/1oNammWtGNdpsZRogPQsjP2uk3MfehGKsd3h_Q8KmxAA/edit?gid=0#gid=0"⟩],
    files := [] },
  { id := "materials_marketing_perf_cg",
    title := "Congo – Performance creatives",
    text := "<b>Congo – Performance creatives</b>\n\nPerformance banners and creatives for Congo market.",
    parent_id := some "materials_marketing_perf",
    children := [],
    links := [⟨"Congo – performance banners", "https://www.figma.com/design/Jj20Evm6lhysGgTsO75IXE/Congo?node-id=59-162&p=f&t=LcsAK8SsQZPPNRPk-0"⟩, ⟨"Congo – performance texts", "https://docs.google.com/spreadsheets/d/10jj31Ka67QO3AxnlWV9PPdJYZy2M-7ov7PeC21cuMpU/edit?gid=1523786630#gid=1523786630"⟩],
    files := [] },
  { id := "materials_marketing_perf_sets",
    title := "Performance sets (Dec 2024)",
    text := "<b>Performance sets (Dec 2024)</b>\n\nGeneral performance banner sets for December 2024 campaign.",
    parent_id := some "materials_marketing_perf",
    children := [],
    links := [⟨"Performance sets Dec24 (1)", "https://www.figma.com/design/OYOkya1idxk8BfNyLCDjRg/CLAB-49833---YTM-Perf-Banners-Dec24"⟩, ⟨"Performance sets Dec24 (2)", "https://www.figma.com/design/OYOkya1idxk8BfNyLCDjRg/CLAB-49833---Performance-Dec24?node-id=3-2994"⟩],
    files := [] },
  { id := "materials_marketing_perf_texts",
    title := "Performance text library",
    text := "<b>Performance text library</b>\n\nGeneral performance ad texts library for all countries.",
    parent_id := some "materials_marketing_perf",
    children := [],
    links := [⟨"Performance text library", "https://docs.google.com/spreadsheets/d/1zNS5aUVxY5StLQ0J01TVHhpuqQjoy4YVARBBmFJ2Ra8/edit?gid=0#gid=0"⟩],
    files := [] },
  { id := "materials_marketing_ooh",
    title := "OOH materials",
    text := "<b>OOH materials</b>\n\nOutdoor advertising materials: banners for malls, billboards, and outdoor displays.",
    parent_id := some "materials_marketing",
    children := [("🏬 Malls OOH", "materials_marketing_ooh_malls"), ("🇦🇴 Angola OOH", "materials_marketing_ooh_ao"), ("🇿🇲 Zambia OOH", "materials_marketing_ooh_zm")],
    links := [],
    files := [] },
  { id := "materials_marketing_ooh_malls",
    title := "Malls OOH",
    text := "<b>Malls OOH</b>\n\nOOH materials for malls and shopping centers.",
    parent_id := some "materials_marketing_ooh",
    children := [],
    links := [⟨"Malls OOH", "https://www.figma.com/design/ja4K9Xj44upbwwWvu9qWV9/YANGO-CARS_ADS-ON-MALLS"⟩],
    files := [] },
  { id := "materials_marketing_ooh_ao",
    title := "Angola OOH",
    text := "<b>Angola OOH</b>\n\nOutdoor advertising materials for Angola market.",
    parent_id := some "materials_marketing_ooh",
    children := [],
    links := [⟨"Angola OOH", "https://www.figma.com/design/aENCAQUznQPAtuZL1bvO6H/Yango-Angola---OOH-car--moto-owners"⟩],
    files := [] },
  { id := "materials_marketing_ooh_zm",
    title := "Zambia OOH",
    text := "<b>Zambia OOH</b>\n\nOutdoor advertising materials for Zambia market.",
    parent_id := some "materials_marketing_ooh",
    children := [],
    links := [⟨"Zambia OOH", "https://www.figma.com/design/wSsZsG2se2Qe7dZRKJZMlv/YANGO-%E2%9C%95-QB-%E2%80%93-client_preview?node-id=7394-108&p=f"⟩],
    files := [] },
  { id := "materials_marketing_offline",
    title := "Flyers & Printed materials",
    text := "<b>Flyers & Printed materials</b>\n\nFlyers, printed materials, and branding assets for events and offices.",
    parent_id := some "materials_marketing",
    children := [],
    links := [⟨"Angola flyers (ANGOTIC)", "https://www.figma.com/design/2Dg2jkvZKmDLxFTQYYPkHK/Yango-Angola---Flyers-for-ANGOTIC"⟩, ⟨"Partner printed materials", "https://www.figma.com/design/hkoZqep4E6021lMRNfQdPu/Yango-Angola---Partners-acquisition_Printed-materials"⟩],
    files := [] },
  { id := "materials_marketing_inapp",
    title := "In-app creatives",
    text := "<b>In-app creatives</b>\n\nCreative materials for in-app placements and notifications.\n\nSelect a country:",
    parent_id := some "materials_marketing",
    children := [("🇦🇴 Angola in-app", "materials_marketing_inapp_ao"), ("🇿🇲 Zambia in-app", "materials_marketing_inapp_zm")],
    links := [],
    files := [] },
  { id := "materials_marketing_inapp_ao",
    title := "Angola in-app",
    text := "<b>Angola in-app creatives</b>\n\nIn-app creative materials for Angola market.",
    parent_id := some "materials_marketing_inapp",
    children := [],
    links := [⟨"Angola in-app", "https://www.figma.com/design/nGtewC8ICEim0Kxhro1UmA/Angola-2025-·-Yango"⟩],
    files := [] },
  { id := "materials_marketing_inapp_zm",
    title := "Zambia in-app",
    text := "<b>Zambia in-app creatives</b>\n\nIn-app creative materials for Zambia market.",
    parent_id := some "materials_marketing_inapp",
    children := [],
    links := [⟨"Zambia in-app", "https://www.figma.com/design/1cpQG9Ty7VL9Jw9ymGK72N/Яндекс-Янго----BONOYT-4537----Yango-Zambia---Car-Owners-Zambia---inapp---Users"⟩],
    files := [] },
  { id := "materials_finmodel",
    title := "Financial models",
    text := "<b>Financial models</b>\n\nThis section contains the base Unit Economics template used to estimate financial feasibility of the Car Owner Acquisition program in each country.\n\n<b>The template allows teams to calculate:</b>\n• Expected weekly revenue\n• Owner payout\n• Partner margin\n• Key operational costs (salary, fuel, maintenance, etc.)\n• Sensitivity based on utilisation levels\n\n<b>Financial model template (Unit Economics only):</b>\nhttps://docs.google.com/spreadsheets/d/13hyO6Z6D7KxN9CH9llOW9vNhtyAMmATjcp7qklyCdb0/edit?gid=1452383912#gid=1452383912\n\n⚠ <b>NOTE</b>\nThis template currently includes ONLY unit economics.\nAdditional calculation models (partner models, expanded cost structures, alternative projections) will be added later once provided.\n\nBefore using the model for decision-making, please validate all assumptions with:\n• Local operations\n• Finance team\n• Legal (if numbers will be used in public/partner communication)",
    parent_id := some "materials",
    children := [],
    links := [⟨"Financial model template (Unit Economics only)", "https://docs.google.com/spreadsheets/d/13hyO6Z6D7KxN9CH9llOW9vNhtyAMmATjcp7qklyCdb0/edit?gid=1452383912#gid=1452383912"⟩],
    files := [] },
  { id := "flows",
    title := "Communication flows",
    text := "<b>✅ Communication flows</b>\n\nThis section describes the two supported communication flows used in the Car Owner Acquisition stream.\n\nEach flow has different strengths and limitations.\nLocal teams should choose the flow based on tracking needs, market maturity and operational readiness.",
    parent_id := some "root",
    children := [("Flow 1 — Landing page (recommended)", "flows_landing"), ("Flow 2 — WhatsApp", "flows_wa"), ("Flow selection guidance", "flows_selection")],
    links := [],
    files := [] },
  { id := "flows_landing",
    title := "Landing page",
    text := "<b>🔹 Flow 1 — Landing page</b>\n\nLanding pages are the primary and recommended communication flow for Car Owner Acquisition.\n\nThey provide structured lead collection and full visibility across the acquisition funnel.\n\n<b>Key benefits:</b>\n• Structured lead form\n• Clear value proposition\n• Full analytics and attribution\n• Easy integration with lead trackers\n• Scalable for performance campaigns\n\n<b>Typical use cases:</b>\n• Performance marketing\n• In-app traffic\n• Offline QR codes\n\n<b>Limitations:</b>\n• Requires web team involvement\n• Setup time before launch\n\n<b>Examples of working landings:</b>\n• Zambia — https://yango.com/en_zm/carinvest/\n• Angola — https://yango.com/en_ao/carinvest/\n• Cameroon — https://yango.com/en_cm/carinvest/\n• Ethiopia — https://yango.com/en_et/carinvest/",
    parent_id := some "flows",
    children := [],
    links := [⟨"🇿🇲 Zambia landing", "https://yango.com/en_zm/carinvest/"⟩, ⟨"🇦🇴 Angola landing", "https://yango.com/en_ao/carinvest/"⟩, ⟨"🇨🇲 Cameroon landing", "https://yango.com/en_cm/carinvest/"⟩, ⟨"🇪🇹 Ethiopia landing", "https://yango.com/en_et/carinvest/"⟩],
    files := [] },
  { id := "flows_wa",
    title := "WhatsApp",
    text := "<b>🔹 Flow 2 — WhatsApp</b>\n\nWhatsApp is used as a simple and fast entry point when landing pages are not available or as a temporary solution.\n\n<b>Key benefits:</b>\n• Low entry barrier for users\n• Fast setup\n• Familiar channel in many markets\n\n<b>Typical use cases:</b>\n• Early market testing\n• Offline acquisition\n• Small-scale pilots\n\n<b>Limitations:</b>\n• No built-in analytics for incoming leads\n• Traffic source attribution is not available\n• Manual lead consolidation is required\n• Limited scalability\n\nWhatsApp should be treated as a temporary or complementary flow, not a long-term replacement for landing pages.",
    parent_id := some "flows",
    children := [],
    links := [],
    files := [] },
  { id := "flows_selection",
    title := "Flow selection guidance",
    text := "<b>🔹 Flow selection guidance</b>\n\n<b>Recommended default setup:</b>\nLanding page.\n\n<b>WhatsApp can be used if:</b>\n• Landing page is not yet available\n• Market is in early testing phase\n• Volume is limited and manual processing is acceptable\n\nAs the market scales, teams should migrate from WhatsApp to landing-based acquisition.",
    parent_id := some "flows",
    children := [],
    links := [],
    files := [] },
  { id := "reports",
    title := "Reports & KPI",
    text := "<b>📊 Reports & KPI</b>\n\nUse these blocks to align metrics and reporting cadence.",
    parent_id := some "root",
    children := [("KPI definitions and formulas", "reports_definitions"), ("Country benchmarks", "reports_benchmarks"), ("KPI tracker", "reports_tracker"), ("Weekly reports", "reports_weekly")],
    links := [],
    files := [] },
  { id := "reports_definitions",
    title := "KPI definitions and formulas",
    text := "<b>KPI definitions and formulas</b>\n\n<b>CPL (Cost Per Lead):</b>\nTotal ad spend / Number of leads\n\n<b>CPA (Cost Per Activation):</b>\nTotal ad spend / Number of activated cars\n\n<b>Conversion rate:</b>\n(Activated cars / Leads) × 100%\n\n<b>Retention (2/4/8 weeks):</b>\n% of cars still active after N weeks",
    parent_id := some "reports",
    children := [],
    links := [⟨"KPI tracker (Sheet)", "https://docs.google.com/spreadsheets/d/1Zj2345sqJvAdQ_jZ-9-RHe86y-w83bPpl6VKMLzn5Zg/edit?resourcekey=&gid=2116500930#gid=2116500930"⟩],
    files := [] },
  { id := "reports_benchmarks",
    title := "Country benchmarks",
    text := "<b>Country benchmarks</b>\n\nCountry benchmarks provide a reference view of Car Owner Acquisition performance across different markets.\n\nBenchmarks help answer:\n• whether a market is performing within a healthy range\n• how results compare to other countries\n• where deeper investigation or optimisation is needed\n\nBenchmarks are based on historical performance across markets and should be used as directional guidance, not strict targets.\n\n<b>Indicative benchmark ranges:</b>\n\n• <b>Cost per lead (CPL):</b>\n  ~$5 – $15\n\n• <b>Lead → contract conversion:</b>\n  ~5% – 15%\n\n• <b>Contract → car activation conversion:</b>\n  ~60% – 85%\n\n• <b>Time to first contact:</b>\n  < 24 hours (recommended)\n\n• <b>Cars activated per week (early stage markets):</b>\n  ~10 – 40 cars\n\n• <b>Cars activated per week (scaled markets):</b>\n  40+ cars\n\nThese ranges may vary depending on:\n• market maturity\n• acquisition channel mix\n• partner setup\n• operational capacity\n\n<b>Country benchmark tracker:</b>\nhttps://docs.google.com/spreadsheets/d/1iUXvp8b2mjpwrAM3bOq1WbRCSLONJIIUIGS6Hs4ogJI/edit?gid=2140084982#gid=2140084982\n\n⚠ <b>NOTE</b>\nBenchmarks should always be interpreted in context.\nMarkets at early launch stages may perform below benchmarks initially, while mature markets are expected to outperform them.",
    parent_id := some "reports",
    children := [],
    links := [⟨"Country benchmark tracker", "https://docs.google.com/spreadsheets/d/1iUXvp8b2mjpwrAM3bOq1WbRCSLONJIIUIGS6Hs4ogJI/edit?gid=2140084982#gid=2140084982"⟩],
    files := [] },
  { id := "reports_tracker",
    title := "KPI tracker",
    text := "<b>KPI tracker</b>\n\nMain KPI tracker used by local teams and central team.",
    parent_id := some "reports",
    children := [],
    links := [⟨"KPI tracker (Sheet)", "https://docs.google.com/spreadsheets/d/1Zj2345sqJvAdQ_jZ-9-RHe86y-w83bPpl6VKMLzn5Zg/edit?resourcekey=&gid=2116500930#gid=2116500930"⟩, ⟨"Lead tracker (Sheet)", "https://docs.google.com/spreadsheets/d/1WhA1pt725L9uGHG6pDDRx5iFxSz2xPRuGJJGIPsAoAA/edit"⟩],
    files := [] },
  { id := "reports_weekly",
    title := "Weekly reports",
    text := "<b>Weekly reports</b>\n\nWeekly reports are used to monitor lead quality, funnel health and operational performance on a regular basis.\n\nLocal teams are expected to share a short weekly summary based on data from the lead tracker.\n\n<b>The goal of weekly reporting is to:</b>\n• quickly identify bottlenecks in the funnel\n• track lead quality and conversion dynamics\n• ensure alignment between marketing, ops and partners\n• enable fast corrective actions if needed\n\n<b>Typical weekly report metrics:</b>\n• Total leads\n• Leads contacted (called)\n• Leads with no response\n• Hot leads (interested in the program)\n• Leads forwarded to partner\n• Leads in contract signing process\n• Leads with signed contracts\n• Converted cars\n\n<b>Example weekly report format (Telegram):</b>\n\n📊 <b>Weekly Car Owner Report — Zambia</b>\n🗓 Period: Nov 1–7\n\n• Total leads: 320\n• Leads contacted: 250\n• No response: 70\n• Hot leads: 110\n• Leads forwarded to partner: 80\n• In contract signing: 45\n• Signed contracts: 32\n• Converted cars: 28\n\nReports are usually shared once per week via Telegram / Slack / Email, depending on local setup.\n\n<b>Example weekly report template:</b>\nhttps://docs.google.com/spreadsheets/d/1Zj2345sqJvAdQ_jZ-9-RHe86y-w83bPpl6VKMLzn5Zg/edit?resourcekey=&gid=2116500930#gid=2116500930\n\n⚠ <b>NOTE</b>\nWeekly reports must be aligned with the lead tracker.\nManual adjustments or estimates should be avoided.",
    parent_id := some "reports",
    children := [],
    links := [⟨"Example weekly report template", "https://docs.google.com/spreadsheets/d/1Zj2345sqJvAdQ_jZ-9-RHe86y-w83bPpl6VKMLzn5Zg/edit?resourcekey=&gid=2116500930#gid=2116500930"⟩],
    files := [] },
  { id := "faq",
    title := "FAQ",
    text := "<b>✅ FAQ</b>\n\nThis section answers the most common questions about launching and operating the Car Owner Acquisition stream.\n\nIf your question is not covered here, please contact the project leads.\n\n<b>❓ What is the Car Owner Acquisition program?</b>\nThe Car Owner Acquisition program allows car owners to rent out their vehicles to Yango partners and earn regular income without driving themselves.\n\nLocal partners manage drivers and operations, while Yango supports demand, platform access and tooling.\n\n<b>❓ When should a market launch this stream?</b>\nThe stream should be launched only after:\n• Market demand is validated\n• Unit economics are positive\n• Operational readiness is confirmed\n• A partner is ready to manage vehicles\n\nLaunching too early may lead to poor lead quality and low conversion.\n\n<b>❓ What is the recommended acquisition flow?</b>\nThe recommended default setup is:\nLanding page → Lead tracker → Call center / scouts → Partner\n\nWhatsApp can be used as a temporary or early-stage solution, but it is not recommended for scaling.\n\n<b>❓ Why is WhatsApp not recommended as a long-term solution?</b>\nWhatsApp has important limitations:\n• No built-in analytics for incoming leads\n• No traffic source attribution\n• Manual lead consolidation\n• Limited scalability\n\nAs volumes grow, landing-based acquisition provides much better control and visibility.\n\n<b>❓ Who owns lead processing and reporting?</b>\nLead processing is usually owned by local operations or an assigned call center.\n\nReporting must be based on the lead tracker and shared on a weekly basis with the central team.\n\n<b>❓ Can we reuse contracts from other countries?</b>\nNo.\n\nContracts from other markets are provided for reference only.\n\nEach contract must be:\n• adapted to local legislation\n• aligned with the partner\n• approved by the legal department\n\n<b>❓ How do we know if a market is performing well?</b>\nPerformance should be evaluated using:\n• Weekly reports\n• Country benchmarks\n• Conversion rates across the funnel\n\nBenchmarks provide directional guidance, not strict targets.\n\n<b>❓ Who should we contact if we have questions?</b>\nFor marketing and launch-related questions:\n@AnnaD1 — Marketing lead\n\nFor operational questions:\n@nikharpatel09 — Ops lead",
    parent_id := some "root",
    children := [],
    links := [],
    files := [] },
  { id := "contacts",
    title := "Contacts",
    text := "<b>👥 Contacts</b>\n\n<b>Marketing lead:</b>\n@AnnaD1\n\n<b>Ops lead:</b>\n@nikharpatel09",
    parent_id := some "root",
    children := [],
    links := [],
    files := [] }
]
/-- Lookup in the MENU dict (node ids are pairwise distinct, so ordered
find over the insertion-ordered node list coincides with dict lookup). -/
def MENU_find (node_id : String) : Option MenuNode :=
  menuList.find? (fun n => n.id == node_id)

/-- get_checklist_state: the view of the checklist mapping of one user. -/
def get_checklist_state (st : ChecklistStore) (user_id : Int) : String → Bool :=
  st user_id

/-- toggle_checklist_item: flip one item for one user, returning the new
store and the new value of the item. -/
def toggle_checklist_item (st : ChecklistStore) (user_id : Int) (item_id : String) :
    ChecklistStore × Bool :=
  let state := get_checklist_state st user_id
  let current := state item_id
  let newVal := !current
  (fun u i => if u = user_id ∧ i = item_id then newVal else st u i, newVal)

/-- get_checklist_progress: (completed, total) over the fixed catalog. -/
def get_checklist_progress (user_id : Int) (st : ChecklistStore) : Nat × Nat :=
  let total := (CHECKLIST_ITEMS.map (fun c => c.2.length)).sum
  let completed :=
    ((CHECKLIST_ITEMS.map (fun c => c.2)).flatten).countP (fun it => st user_id it.1)
  (completed, total)

/-- get_checklist_text: checklist body text with the progress counter. -/
def get_checklist_text (user_id : Int) (st : ChecklistStore) : String :=
  let p := get_checklist_progress user_id st
  "<b>Step 5 — Go-live checklist</b>\n\nMark each item as completed before go-live.\n\n<b>Progress: "
    ++ toString p.1 ++ " / " ++ toString p.2 ++ " completed</b>"

/-- The Back button of a navigation row, targeting `t`. -/
def backButton (t : String) : InlineKeyboardButton :=
  { text := "⬅ Back", callback_data := some ("menu:" ++ t) }

/-- The Home button of a navigation row (always targets root). -/
def homeButton : InlineKeyboardButton :=
  { text := "🏠 Home", callback_data := some "menu:root" }

/-- The hard-coded static button list of build_main_menu. -/
def main_menu_buttons : List (String × String) :=
  [("How it works", "what_is_coa"),
   ("🚀 Start launch", "start_launch"),
   ("💬 Communication flows", "flows"),
   ("📁 Materials & templates", "materials"),
   ("📊 Reports & KPI", "reports"),
   ("❓ FAQ", "faq"),
   ("👥 Contacts", "contacts")]

/-- build_main_menu: the STATIC root keyboard; in the root menu both Back
and Home go to root. -/
def build_main_menu : InlineKeyboardMarkup :=
  ⟨(main_menu_buttons.map fun c =>
      [{ text := c.1, callback_data := some ("menu:" ++ c.2) }])
    ++ [[backButton "root", homeButton]]⟩

/-- build_checklist_keyboard: one toggle row per catalog item with a
checked/unchecked glyph, then the Back/Home navigation row. -/
def build_checklist_keyboard (user_id : Int) (node : MenuNode) (st : ChecklistStore) :
    InlineKeyboardMarkup :=
  let itemRows :=
    (CHECKLIST_ITEMS.map fun c => c.2.map fun it =>
      [{ text := (if st user_id it.1 then "✅" else "⬜") ++ " " ++ it.2,
         callback_data := some ("toggle:" ++ it.1) : InlineKeyboardButton }]).flatten
  let parent_node_id :=
    match node.parent_id with
    | some p => if (MENU_find p).isSome then p else "root"
    | none => "root"
  ⟨itemRows ++ [[backButton parent_node_id, homeButton]]⟩

/-- The non-root, non-checklist part of build_menu_keyboard: child rows,
link rows, file rows, then the Back/Home navigation row (Back to
parent_id, or root if the parent is missing or not in MENU). -/
def build_section_keyboard (node : MenuNode) : InlineKeyboardMarkup :=
  let rows : List (List InlineKeyboardButton) :=
    (node.children.map fun c => [{ text := c.1, callback_data := some ("menu:" ++ c.2) }])
    ++ (node.links.map fun l => [{ text := "🔗 " ++ l.title, url := some l.url }])
    ++ (node.files.map fun f =>
         [{ text := "📎 " ++ f.title,
            callback_data := some ("file:" ++ node.id ++ ":" ++ f.title) }])
  let p0 := match node.parent_id with
    | some p => p
    | none => "root"
  let parent_node_id := if (MENU_find p0).isSome then p0 else "root"
  ⟨rows ++ [[backButton parent_node_id, homeButton]]⟩

/-- build_menu_keyboard: root always gets the static main menu; the
checklist node with a user gets the checklist keyboard; everything else
gets the generic section keyboard. -/
def build_menu_keyboard (node : MenuNode) (user_id : Option Int) (st : ChecklistStore) :
    InlineKeyboardMarkup :=
  if node.id = "root" then build_main_menu
  else
    match user_id with
    | some u =>
        if node.id = "start_step_7" then build_checklist_keyboard u node st
        else build_section_keyboard node
    | none => build_section_keyboard node

/-- Python str.split(sep, 1) at the first colon: none when no colon. -/
def splitOnceColonAux : List Char → Option (List Char × List Char)
  | [] => none
  | c :: cs =>
    if c = ':' then some ([], cs)
    else
      match splitOnceColonAux cs with
      | none => none
      | some (a, b) => some (c :: a, b)

/-- Split a string at its first colon. -/
def splitOnceColon (s : String) : Option (String × String) :=
  match splitOnceColonAux s.data with
  | none => none
  | some (a, b) => some (⟨a⟩, ⟨b⟩)

/-- Python str.split(":", 2): succeeds when at least two colons occur. -/
def splitTwiceColon (s : String) : Option (String × String × String) :=
  match splitOnceColon s with
  | none => none
  | some (a, rest) =>
    match splitOnceColon rest with
    | none => none
    | some (b, c) => some (a, b, c)

/-- Python str.strip(): drop leading and trailing whitespace. -/
def pyStrip (s : String) : String :=
  ⟨((s.data.dropWhile Char.isWhitespace).reverse.dropWhile Char.isWhitespace).reverse⟩

/-- Python str.startswith. -/
def pyStartsWith (s pat : String) : Bool :=
  pat.data.isPrefixOf s.data

/-- parse_callback: accepts menu:<id>, v3:<id>, v4:<id>; anything else
(including the empty payload) yields no node id. -/
def parse_callback (data : String) : Option String :=
  if data = "" then none
  else if pyStartsWith data "menu:" then
    match splitOnceColon data with
    | some r => some (pyStrip r.2)
    | none => none
  else if pyStartsWith data "v3:" || pyStartsWith data "v4:" then
    match splitOnceColon data with
    | some r => some (pyStrip r.2)
    | none => none
  else none

/-- render_node: unknown ids fall back to root; root uses the static main
menu; the checklist node requires a user id (ValueError otherwise,
modelled as Except.error). -/
def render_node (node_id : String) (user_id : Option Int) (st : ChecklistStore) :
    Except String (String × InlineKeyboardMarkup) :=
  let nid := if (MENU_find node_id).isSome then node_id else "root"
  match MENU_find nid with
  | none => Except.error "missing root node"
  | some node =>
    if nid = "root" then Except.ok (node.text, build_main_menu)
    else if nid = "start_step_7" then
      match user_id with
      | none => Except.error "user_id is required for checklist node"
      | some u => Except.ok (get_checklist_text u st, build_menu_keyboard node (some u) st)
    else Except.ok (node.text, build_menu_keyboard node none st)

/-- open_node in edit mode, on the happy transport path: a successful
render becomes one in-place edit of the display surface; a render error
is caught at the handler boundary and logged. -/
def open_node_effects (node_id : String) (user_id : Option Int) (st : ChecklistStore) :
    List Effect :=
  match render_node node_id user_id st with
  | Except.ok r => [Effect.editMessage r.1 r.2]
  | Except.error e => [Effect.log ("ERROR opening node " ++ node_id ++ ": " ++ e)]

/-- The duplicate-delivery fingerprint of a callback event:
chat id, message id and raw payload. -/
def callback_fp (chatId msgId : Int) (data : String) : String :=
  toString chatId ++ ":" ++ toString msgId ++ ":" ++ data

/-- The branch outcomes of on_file_callback after the dedup guard:
validate the (node id, file title) pair against the tree, then deliver. -/
def file_callback_effects (data : String) (fileExists : String → Bool) : List Effect :=
  match splitTwiceColon data with
  | none => [Effect.ackAlert "Invalid file request format"]
  | some (_, node_id, file_title) =>
    match MENU_find node_id with
    | none => [Effect.ackAlert "File not found"]
    | some node =>
      if node.files.isEmpty then [Effect.ackAlert "File not found"]
      else
        match node.files.find? (fun f => f.title == file_title) with
        | none => [Effect.ackAlert "File not found"]
        | some fref =>
          if fileExists fref.path then
            [Effect.sendDocument fref.path file_title, Effect.ack]
          else [Effect.ackAlert "File not found"]

/-- on_file_callback: a repeated fingerprint is acknowledged only; a fresh
one is marked handled first (with the lossy wholesale clear past 200
entries), then the file request is served. -/
def on_file_callback (chatId msgId : Int) (data : String) (s : BotState)
    (fileExists : String → Bool) : BotState × List Effect :=
  let fp := callback_fp chatId msgId data
  if s.processedCallbacks.contains fp then (s, [Effect.ack])
  else
    let s1 := { s with processedCallbacks := s.processedCallbacks ++ [fp] }
    let s2 := if s1.processedCallbacks.length > 200 then
                { s1 with processedCallbacks := [] }
              else s1
    (s2, file_callback_effects data fileExists)

/-- on_menu_callback: parse the action token, drop unknown nodes with a
silent acknowledgment, otherwise acknowledge then edit in place. -/
def on_menu_callback (userId : Int) (data : String) (s : BotState) :
    BotState × List Effect :=
  match parse_callback data with
  | none =>
    (s, [Effect.log ("ERROR: Failed to parse callback data " ++ data),
         Effect.ackAlert "Invalid callback data"])
  | some node_id =>
    if (MENU_find node_id).isNone then
      (s, [Effect.log ("ERROR: Unknown section node_id=" ++ node_id
              ++ ", callback_data=" ++ data),
           Effect.ack])
    else
      (s, Effect.ack :: open_node_effects node_id (some userId) s.checklist)

/-- Membership of an item id in the fixed checklist catalog, as tested by
on_checklist_toggle. -/
def itemExists (item_id : String) : Bool :=
  CHECKLIST_ITEMS.any fun c => c.2.any fun it => item_id == it.1

/-- on_checklist_toggle: validate the item id against the catalog, flip
the boolean, acknowledge, re-render the checklist node. -/
def on_checklist_toggle (userId : Int) (data : String) (s : BotState) :
    BotState × List Effect :=
  match splitOnceColon data with
  | none =>
    (s, [Effect.log ("ERROR parsing toggle callback data " ++ data),
         Effect.ackAlert "Invalid callback data"])
  | some r =>
    let item_id := pyStrip r.2
    if itemExists item_id then
      let t := toggle_checklist_item s.checklist userId item_id
      let s1 := { s with checklist := t.1 }
      (s1, Effect.ack :: open_node_effects "start_step_7" (some userId) t.1)
    else
      (s, [Effect.log ("ERROR: Unknown checklist item_id=" ++ item_id),
           Effect.ackAlert "Unknown checklist item"])

/-- Router dispatch over the registered callback-handler filters, in
registration order; a payload matching none of them is never handled. -/
def dispatch_callback (chatId msgId userId : Int) (data : String) (s : BotState)
    (fileExists : String → Bool) : BotState × List Effect :=
  if pyStartsWith data "file:" then on_file_callback chatId msgId data s fileExists
  else if pyStartsWith data "menu:" || pyStartsWith data "v3:" || pyStartsWith data "v4:" then
    on_menu_callback userId data s
  else if pyStartsWith data "toggle:" then on_checklist_toggle userId data s
  else (s, [])

/-- The empty checklist store (every item unchecked for every user). -/
def emptyChecklist : ChecklistStore := fun _ _ => false

/-- The bot state at process start. -/
def initialState : BotState :=
  { processedMessages := [], processedCallbacks := [], checklist := emptyChecklist }

/-- No local file present (delivery-time view of the filesystem). -/
def noFiles : String → Bool := fun _ => false

/-- A render effect: an in-place edit, a fresh message, or a document
delivery — anything that changes what the user sees beyond an ack. -/
def isRenderEffect : Effect → Bool
  | Effect.editMessage _ _ => true
  | Effect.sendMessage _ _ => true
  | Effect.sendDocument _ _ => true
  | _ => false

/-- Digit-string value accumulator for pyParseInt. -/
def digitsValAux : List Char → Nat → Option Nat
  | [], acc => some acc
  | c :: cs, acc =>
    if c.isDigit then digitsValAux cs (acc * 10 + (c.toNat - 48)) else none

/-- Value of a nonempty all-digit character run. -/
def digitsVal : List Char → Option Nat
  | [] => none
  | l => digitsValAux l 0

/-- Python int(str): strip whitespace, optional sign, decimal digits;
none models the ValueError branch. -/
def pyParseInt (s : String) : Option Int :=
  match (pyStrip s).data with
  | [] => none
  | c :: ds =>
    if c = '-' then (digitsVal ds).map (fun n => -(n : Int))
    else if c = '+' then (digitsVal ds).map (fun n => (n : Int))
    else (digitsVal (c :: ds)).map (fun n => (n : Int))

/-- Result of os.kill(pid, 0) in the single-instance check. -/
inductive KillResult where
  | ok : KillResult
  | noSuchProcess : KillResult
  | permissionDenied : KillResult
deriving DecidableEq

/-- Environment of the startup lock check: the lock marker file contents
(none when absent), process liveness, and our own pid. -/
structure LockEnv where
  lockContents : Option String
  alive : Int → KillResult
  currentPid : Int

/-- check_single_instance: abort when the recorded pid answers kill-0;
warn and proceed when signalling is denied; remove a stale or malformed
marker; finally (re)write the marker with the current pid. -/
def check_single_instance (e : LockEnv) : Except String LockEnv :=
  match e.lockContents with
  | some contents =>
    match pyParseInt contents with
    | some old_pid =>
      match e.alive old_pid with
      | KillResult.ok =>
          Except.error ("ERROR: Another bot instance is already running (PID: "
            ++ toString old_pid ++ ")")
      | KillResult.noSuchProcess =>
          Except.ok { e with lockContents := some (toString e.currentPid) }
      | KillResult.permissionDenied =>
          Except.ok { e with lockContents := some (toString e.currentPid) }
    | none => Except.ok { e with lockContents := some (toString e.currentPid) }
  | none => Except.ok { e with lockContents := some (toString e.currentPid) }

/-- The __main__ startup order: the single-instance check runs first and
only a successful check reaches start_polling (the Bool records that the
transport connection was attempted). -/
def bot_startup (e : LockEnv) : Except String (LockEnv × Bool) :=
  match check_single_instance e with
  | Except.error msg => Except.error msg
  | Except.ok e2 => Except.ok (e2, true)

/-- cleanup_lock: remove the marker unconditionally on shutdown. -/
def cleanup_lock (e : LockEnv) : LockEnv :=
  { e with lockContents := none }

/-- All catalog item ids in catalog order. -/
def allItemIds : List String :=
  ((CHECKLIST_ITEMS.map (fun c => c.2)).flatten).map (fun it => it.1)

/-- A lock environment holding a live, signalable recorded pid. -/
def envLive : LockEnv :=
  { lockContents := some "123", alive := fun _ => KillResult.ok, currentPid := 7 }

/-- A lock environment holding a stale recorded pid. -/
def envStale : LockEnv :=
  { lockContents := some "123", alive := fun _ => KillResult.noSuchProcess,
    currentPid := 7 }

/-- A lock environment whose recorded pid exists but cannot be
signalled by the current user. -/
def envPermDenied : LockEnv :=
  { lockContents := some "123", alive := fun _ => KillResult.permissionDenied,
    currentPid := 7 }

/- ------------------------- helper lemmas ------------------------- -/

lemma getLast?_append_singleton {α : Type} (l : List α) (a : α) :
    (l ++ [a]).getLast? = some a := by
  induction l with
  | nil => rfl
  | cons b t ih =>
    rw [List.cons_append, List.getLast?_cons]
    simp [ih]

lemma contains_append_singleton (l : List String) (a : String) :
    (l ++ [a]).contains a = true := by
  induction l with
  | nil => simp
  | cons b t ih => simp [ih]

lemma countP_ext {α : Type} (p q : α → Bool) (l : List α)
    (h : ∀ a ∈ l, p a = q a) : l.countP p = l.countP q := by
  induction l with
  | nil => rfl
  | cons b t ih =>
    rw [List.countP_cons, List.countP_cons, h b (by simp),
      ih (fun a ha => h a (by simp [ha]))]

lemma countP_eq_one_of_nodup (l : List String) (a : String)
    (hnd : l.Nodup) (ha : a ∈ l) :
    l.countP (fun x => decide (x = a)) = 1 := by
  induction l with
  | nil => cases ha
  | cons b t ih =>
    rw [List.countP_cons]
    rcases List.mem_cons.mp ha with rfl | hat
    · have hbt : a ∉ t := (List.nodup_cons.mp hnd).1
      have ht : t.countP (fun x => decide (x = a)) = 0 := by
        rw [List.countP_eq_zero]
        intro x hx
        simp only [decide_eq_true_eq]
        rintro rfl
        exact hbt hx
      simp [ht]
    · have hba : ¬(b = a) := by
        rintro rfl
        exact (List.nodup_cons.mp hnd).1 hat
      rw [ih (List.nodup_cons.mp hnd).2 hat]
      simp [hba]

lemma find?_id_eq (node_id : String) (node : MenuNode)
    (h : MENU_find node_id = some node) : node.id = node_id := by
  have := List.find?_some h
  simpa using this

/-- The Back/Home navigation row closes every keyboard build_menu_keyboard
produces, and its Back target is always found in MENU. -/
lemma build_menu_keyboard_nav (node : MenuNode) (user_id : Option Int)
    (st : ChecklistStore) :
    ∃ p, (build_menu_keyboard node user_id st).inline_keyboard.getLast? =
        some [backButton p, homeButton] ∧ (MENU_find p).isSome = true := by
  have hroot : (MENU_find "root").isSome = true := by decide
  have hsec : ∀ n : MenuNode,
      ∃ p, (build_section_keyboard n).inline_keyboard.getLast? =
        some [backButton p, homeButton] ∧ (MENU_find p).isSome = true := by
    intro n
    rcases hp : n.parent_id with _ | p
    · exact ⟨"root", by simp [build_section_keyboard, hp, getLast?_append_singleton], hroot⟩
    · by_cases hip : (MENU_find p).isSome = true
      · exact ⟨p, by simp [build_section_keyboard, hp, hip, getLast?_append_singleton], hip⟩
      · refine ⟨"root", ?_, hroot⟩
        simp [build_section_keyboard, hp, hip, getLast?_append_singleton]
  unfold build_menu_keyboard
  by_cases hr : node.id = "root"
  · exact ⟨"root", by rw [if_pos hr]; rfl, hroot⟩
  · rw [if_neg hr]
    cases user_id with
    | none => exact hsec node
    | some u =>
      dsimp only
      by_cases h7 : node.id = "start_step_7"
      · rw [if_pos h7]
        unfold build_checklist_keyboard
        rcases hp : node.parent_id with _ | p
        · exact ⟨"root", by simp [hp, getLast?_append_singleton], hroot⟩
        · by_cases hip : (MENU_find p).isSome = true
          · exact ⟨p, by simp [hp, hip, getLast?_append_singleton], hip⟩
          · refine ⟨"root", ?_, hroot⟩
            simp [hp, hip, getLast?_append_singleton]
      · rw [if_neg h7]
        exact hsec node

/- ------------------------- claim theorems ------------------------- -/

/-- C4: for every node id not present in the content tree and every user
id, render_node substitutes the root node id and yields exactly the
exact rendering of root (text and keyboard), returning Except.ok rather than an
error. -/
theorem C4_render_unknown_is_root (node_id : String)
    (h : MENU_find node_id = none) (user_id : Option Int) (st : ChecklistStore) :
    render_node node_id user_id st = render_node "root" user_id st ∧
    render_node node_id user_id st =
      Except.ok ("<b>Yango Car Owner Acquisition Assistant</b>\n\nSelect a section:",
        build_main_menu) := by
  have hfall : render_node node_id user_id st = render_node "root" user_id st := by
    unfold render_node
    rw [h]
    rfl
  exact ⟨hfall, by rw [hfall]; rfl⟩

/-- C4 witness: a concrete unknown node id renders as root. -/
theorem C4_render_unknown_is_root_witness :
    MENU_find "no_such_node" = none ∧
    (render_node "no_such_node" none emptyChecklist =
        render_node "root" none emptyChecklist ∧
      render_node "no_such_node" none emptyChecklist =
        Except.ok ("<b>Yango Car Owner Acquisition Assistant</b>\n\nSelect a section:",
          build_main_menu)) :=
  ⟨by decide, C4_render_unknown_is_root "no_such_node" (by decide) none emptyChecklist⟩

/-- C10: render_node is not total over known node ids: the checklist node
start_step_7 with user_id = none raises (Except.error), while every other
known node id returns normally for any user id, and start_step_7 returns
normally whenever a user id is supplied. -/
theorem C10_render_checklist_needs_user :
    (∀ st : ChecklistStore,
      render_node "start_step_7" none st =
        Except.error "user_id is required for checklist node") ∧
    (∀ node_id : String, (MENU_find node_id).isSome = true →
      node_id ≠ "start_step_7" →
      ∀ (user_id : Option Int) (st : ChecklistStore),
        ∃ r, render_node node_id user_id st = Except.ok r) ∧
    (∀ (u : Int) (st : ChecklistStore),
      ∃ r, render_node "start_step_7" (some u) st = Except.ok r) := by
  refine ⟨fun st => rfl, ?_, fun u st => ⟨_, rfl⟩⟩
  intro node_id hs hne user_id st
  obtain ⟨node, hn⟩ : ∃ n, MENU_find node_id = some n := by
    cases hfind : MENU_find node_id
    · rw [hfind] at hs; cases hs
    · exact ⟨_, rfl⟩
  unfold render_node
  rw [hs]
  simp only [if_true]
  rw [hn]
  dsimp only
  by_cases hr : node_id = "root"
  · rw [if_pos hr]; exact ⟨_, rfl⟩
  · rw [if_neg hr, if_neg hne]; exact ⟨_, rfl⟩

/-- C10 witness: concrete instances of all three branches. -/
theorem C10_render_checklist_needs_user_witness :
    render_node "start_step_7" none emptyChecklist =
      Except.error "user_id is required for checklist node" ∧
    ((MENU_find "faq").isSome = true ∧ "faq" ≠ "start_step_7" ∧
      ∃ r, render_node "faq" none emptyChecklist = Except.ok r) ∧
    (∃ r, render_node "start_step_7" (some 1) emptyChecklist = Except.ok r) :=
  ⟨C10_render_checklist_needs_user.1 emptyChecklist,
   ⟨by decide, by decide,
    C10_render_checklist_needs_user.2.1 "faq" (by decide) (by decide) none emptyChecklist⟩,
   C10_render_checklist_needs_user.2.2 1 emptyChecklist⟩
/-- str.split(":", 1) on a payload with a known one-colon head. -/
lemma splitOnceColon_toggle (s : String) :
    splitOnceColon ("toggle:" ++ s) = some ("toggle", s) := rfl

/-- C2 (amended): on an action token whose extracted node id is not in
the content tree, the navigation router logs the anomaly and acknowledges
silently (closing the loading indicator, no alert), returning with no
render and no state change — it does not fall back to rendering root. -/
theorem C2_unknown_node_silent_ack (userId : Int) (data : String)
    (s : BotState) (node_id : String)
    (hp : parse_callback data = some node_id)
    (hn : MENU_find node_id = none) :
    on_menu_callback userId data s =
      (s, [Effect.log ("ERROR: Unknown section node_id=" ++ node_id
            ++ ", callback_data=" ++ data),
           Effect.ack]) := by
  unfold on_menu_callback
  rw [hp]
  simp [hn]

/-- C2 witness: a concrete unknown navigation target. -/
theorem C2_unknown_node_silent_ack_witness :
    parse_callback "menu:no_such_node" = some "no_such_node" ∧
    MENU_find "no_such_node" = none ∧
    on_menu_callback 3 "menu:no_such_node" initialState =
      (initialState,
       [Effect.log ("ERROR: Unknown section node_id=" ++ "no_such_node"
          ++ ", callback_data=" ++ "menu:no_such_node"),
        Effect.ack]) :=
  ⟨by decide, by decide,
   C2_unknown_node_silent_ack 3 "menu:no_such_node" initialState "no_such_node"
     (by decide) (by decide)⟩

/-- C2 counterexample: the claim says an unknown node id is recovered by
rendering the root node; on the concrete token menu:no_such_node the
handler performs zero render effects and leaves the state unchanged. -/
theorem C2_no_root_render_counterexample :
    (on_menu_callback 3 "menu:no_such_node" initialState).2.countP isRenderEffect = 0 ∧
    (on_menu_callback 3 "menu:no_such_node" initialState).1 = initialState :=
  ⟨rfl, rfl⟩

/-- C3 (amended): an action token whose head matches none of the
registered handler filters (file:, menu:, v3:, v4:, toggle:) is never
dispatched to any handler: the event gets no acknowledgment, no error
banner and no state change, and parse_callback extracts no node id from
it. -/
theorem C3_unrecognized_token_ignored (chatId msgId userId : Int)
    (data : String) (s : BotState) (fileExists : String → Bool)
    (h1 : pyStartsWith data "file:" = false)
    (h2 : pyStartsWith data "menu:" = false)
    (h3 : pyStartsWith data "v3:" = false)
    (h4 : pyStartsWith data "v4:" = false)
    (h5 : pyStartsWith data "toggle:" = false) :
    dispatch_callback chatId msgId userId data s fileExists = (s, []) ∧
    parse_callback data = none := by
  constructor
  · unfold dispatch_callback
    rw [h1, h2, h3, h4, h5]
    rfl
  · unfold parse_callback
    rw [h2, h3, h4]
    by_cases hd : data = ""
    · simp [hd]
    · simp [hd]

/-- C3 witness: a concrete unaccepted action token. -/
theorem C3_unrecognized_token_ignored_witness :
    pyStartsWith "back:root" "file:" = false ∧
    pyStartsWith "back:root" "menu:" = false ∧
    pyStartsWith "back:root" "v3:" = false ∧
    pyStartsWith "back:root" "v4:" = false ∧
    pyStartsWith "back:root" "toggle:" = false ∧
    (dispatch_callback 1 2 3 "back:root" initialState noFiles = (initialState, []) ∧
      parse_callback "back:root" = none) :=
  ⟨by decide, by decide, by decide, by decide, by decide,
   C3_unrecognized_token_ignored 1 2 3 "back:root" initialState noFiles
     (by decide) (by decide) (by decide) (by decide) (by decide)⟩

/-- C3 counterexample: the claim says an invalid-prefix token is answered
with an acknowledgment; the concrete token back:root produces no effects
at all — in particular no acknowledgment. -/
theorem C3_no_ack_counterexample :
    dispatch_callback 1 2 3 "back:root" initialState noFiles = (initialState, []) :=
  rfl

/-- C7: a toggle request for an item id outside the fixed checklist
catalog leaves the whole bot state (the checklist of the requesting user
and of every other user) unchanged and produces a rejection notice, without
raising. -/
theorem C7_unknown_item_rejected (userId : Int) (item_id : String)
    (s : BotState) (h : itemExists (pyStrip item_id) = false) :
    on_checklist_toggle userId ("toggle:" ++ item_id) s =
      (s, [Effect.log ("ERROR: Unknown checklist item_id=" ++ (pyStrip item_id)),
           Effect.ackAlert "Unknown checklist item"]) := by
  unfold on_checklist_toggle
  rw [splitOnceColon_toggle]
  simp [h]

/-- C7 witness: a concrete unknown item id. -/
theorem C7_unknown_item_rejected_witness :
    itemExists (pyStrip "no_such_item") = false ∧
    on_checklist_toggle 1 ("toggle:" ++ "no_such_item") initialState =
      (initialState,
       [Effect.log ("ERROR: Unknown checklist item_id=" ++ (pyStrip "no_such_item")),
        Effect.ackAlert "Unknown checklist item"]) :=
  ⟨by decide, C7_unknown_item_rejected 1 "no_such_item" initialState (by decide)⟩

/-- C8: toggling any item for user A leaves the entire checklist
mapping of user B unchanged, for any two distinct users. -/
theorem C8_toggle_frame (a b : Int) (hab : a ≠ b) (item_id : String)
    (st : ChecklistStore) :
    (toggle_checklist_item st a item_id).1 b = get_checklist_state st b := by
  funext i
  unfold toggle_checklist_item get_checklist_state
  dsimp only
  rw [if_neg]
  rintro ⟨h1, -⟩
  exact hab h1.symm

/-- C8 witness: concrete distinct users. -/
theorem C8_toggle_frame_witness :
    (1 : Int) ≠ 2 ∧
    (toggle_checklist_item emptyChecklist 1 "market_demand").1 2 =
      get_checklist_state emptyChecklist 2 :=
  ⟨by decide, C8_toggle_frame 1 2 (by decide) "market_demand" emptyChecklist⟩
/-- C5: rendering any node of the content tree (with a user id supplied)
succeeds, and the produced keyboard ends with a navigation row whose Back
action targets a node id found in MENU (parent, or root as fallback) and
whose Home action targets root. -/
theorem C5_nav_row_resolvable (node_id : String)
    (h : (MENU_find node_id).isSome = true) (u : Int) (st : ChecklistStore) :
    ∃ t kb p, render_node node_id (some u) st = Except.ok (t, kb) ∧
      kb.inline_keyboard.getLast? = some [backButton p, homeButton] ∧
      (MENU_find p).isSome = true := by
  obtain ⟨node, hn⟩ : ∃ n, MENU_find node_id = some n := by
    cases hfind : MENU_find node_id
    · rw [hfind] at h; cases h
    · exact ⟨_, rfl⟩
  unfold render_node
  rw [h]
  simp only [if_true]
  rw [hn]
  dsimp only
  by_cases hr : node_id = "root"
  · rw [if_pos hr]
    exact ⟨node.text, build_main_menu, "root", rfl, rfl, by decide⟩
  · rw [if_neg hr]
    by_cases h7 : node_id = "start_step_7"
    · rw [if_pos h7]
      obtain ⟨p, h1, h2⟩ := build_menu_keyboard_nav node (some u) st
      exact ⟨_, _, p, rfl, h1, h2⟩
    · rw [if_neg h7]
      obtain ⟨p, h1, h2⟩ := build_menu_keyboard_nav node none st
      exact ⟨_, _, p, rfl, h1, h2⟩

/-- C5 witness: the navigation row of a concrete rendered node. -/
theorem C5_nav_row_resolvable_witness :
    (MENU_find "materials_contracts").isSome = true ∧
    ∃ t kb p,
      render_node "materials_contracts" (some 1) emptyChecklist = Except.ok (t, kb) ∧
      kb.inline_keyboard.getLast? = some [backButton p, homeButton] ∧
      (MENU_find p).isSome = true :=
  ⟨by decide, C5_nav_row_resolvable "materials_contracts" (by decide) 1 emptyChecklist⟩

/-- C6: with the empty checklist state the progress text reads
"0 / 28 completed"; toggling any catalog item moves it to
"1 / 28 completed"; toggling the same item again restores the original
text (toggle is an involution on the progress). -/
theorem C6_progress_roundtrip (u : Int) (item : String) (h : item ∈ allItemIds) :
    get_checklist_text u emptyChecklist =
      "<b>Step 5 — Go-live checklist</b>\n\nMark each item as completed before go-live.\n\n<b>Progress: 0 / 28 completed</b>" ∧
    get_checklist_text u (toggle_checklist_item emptyChecklist u item).1 =
      "<b>Step 5 — Go-live checklist</b>\n\nMark each item as completed before go-live.\n\n<b>Progress: 1 / 28 completed</b>" ∧
    get_checklist_text u
        (toggle_checklist_item (toggle_checklist_item emptyChecklist u item).1 u item).1 =
      get_checklist_text u emptyChecklist := by
  have hval1 : ∀ i, (toggle_checklist_item emptyChecklist u item).1 u i =
      decide (i = item) := by
    intro i
    simp only [toggle_checklist_item, get_checklist_state, emptyChecklist]
    by_cases hi : i = item
    · simp [hi]
    · simp [hi]
  have hval2 : ∀ i,
      (toggle_checklist_item (toggle_checklist_item emptyChecklist u item).1 u item).1 u i
        = false := by
    intro i
    conv_lhs => rw [toggle_checklist_item]
    simp only [get_checklist_state]
    by_cases hi : i = item
    · simp [hi, hval1]
    · simp [hi, hval1]
  have hc1 : ((CHECKLIST_ITEMS.map (fun c => c.2)).flatten).countP
      (fun it => (toggle_checklist_item emptyChecklist u item).1 u it.1) = 1 := by
    rw [countP_ext _ (fun it => decide (it.1 = item)) _ (fun a _ => hval1 a.1)]
    have hmap : ((CHECKLIST_ITEMS.map (fun c => c.2)).flatten).countP
        (fun it => decide (it.1 = item)) =
        (((CHECKLIST_ITEMS.map (fun c => c.2)).flatten).map (fun it => it.1)).countP
          (fun x => decide (x = item)) := by
      rw [List.countP_map]
      rfl
    rw [hmap]
    exact countP_eq_one_of_nodup _ item (by decide) h
  have hc2 : ((CHECKLIST_ITEMS.map (fun c => c.2)).flatten).countP
      (fun it =>
        (toggle_checklist_item (toggle_checklist_item emptyChecklist u item).1 u item).1
          u it.1) = 0 := by
    rw [countP_ext _ (fun _ => false) _ (fun a _ => hval2 a.1)]
    rw [List.countP_eq_zero]
    intro a ha
    simp
  have t2 : get_checklist_text u (toggle_checklist_item emptyChecklist u item).1 =
      "<b>Step 5 — Go-live checklist</b>\n\nMark each item as completed before go-live.\n\n<b>Progress: 1 / 28 completed</b>" := by
    simp only [get_checklist_text, get_checklist_progress]
    rw [hc1]
    rfl
  have t3 : get_checklist_text u
      (toggle_checklist_item (toggle_checklist_item emptyChecklist u item).1 u item).1 =
      "<b>Step 5 — Go-live checklist</b>\n\nMark each item as completed before go-live.\n\n<b>Progress: 0 / 28 completed</b>" := by
    simp only [get_checklist_text, get_checklist_progress]
    rw [hc2]
    rfl
  have t1 : get_checklist_text u emptyChecklist =
      "<b>Step 5 — Go-live checklist</b>\n\nMark each item as completed before go-live.\n\n<b>Progress: 0 / 28 completed</b>" := by
    unfold get_checklist_text
    rw [show get_checklist_progress u emptyChecklist = (0, 28) from rfl]
    rfl
  exact ⟨t1, t2, t3.trans t1.symm⟩

/-- C6 witness: a concrete catalog item round-trips the progress text. -/
theorem C6_progress_roundtrip_witness :
    "market_demand" ∈ allItemIds ∧
    (get_checklist_text 1 emptyChecklist =
      "<b>Step 5 — Go-live checklist</b>\n\nMark each item as completed before go-live.\n\n<b>Progress: 0 / 28 completed</b>" ∧
    get_checklist_text 1 (toggle_checklist_item emptyChecklist 1 "market_demand").1 =
      "<b>Step 5 — Go-live checklist</b>\n\nMark each item as completed before go-live.\n\n<b>Progress: 1 / 28 completed</b>" ∧
    get_checklist_text 1
        (toggle_checklist_item
          (toggle_checklist_item emptyChecklist 1 "market_demand").1 1 "market_demand").1 =
      get_checklist_text 1 emptyChecklist) :=
  ⟨by decide, C6_progress_roundtrip 1 "market_demand" (by decide)⟩
/-- C1 (amended): for file-delivery callbacks the fingerprint is marked
handled by the first delivery (provided the insertion does not overflow
the 200-entry bound, whose wholesale clear would forget it), and the
second delivery of the same fingerprint acknowledges only: no state
change and no effect besides the single ack. -/
theorem C1_file_dedup_second_ack_only (chatId msgId : Int) (data : String)
    (s : BotState) (fileExists : String → Bool)
    (hlen : s.processedCallbacks.length < 200) :
    (on_file_callback chatId msgId data s fileExists).1.processedCallbacks.contains
        (callback_fp chatId msgId data) = true ∧
    (on_file_callback chatId msgId data
        (on_file_callback chatId msgId data s fileExists).1 fileExists).1 =
      (on_file_callback chatId msgId data s fileExists).1 ∧
    (on_file_callback chatId msgId data
        (on_file_callback chatId msgId data s fileExists).1 fileExists).2 =
      [Effect.ack] := by
  by_cases hc : s.processedCallbacks.contains (callback_fp chatId msgId data) = true
  · have h1 : on_file_callback chatId msgId data s fileExists = (s, [Effect.ack]) := by
      unfold on_file_callback
      rw [if_pos hc]
    rw [h1]
    exact ⟨hc, by unfold on_file_callback; rw [if_pos hc], by unfold on_file_callback; rw [if_pos hc]⟩
  · have hnogrow :
        ¬((s.processedCallbacks ++ [callback_fp chatId msgId data]).length > 200) := by
      rw [List.length_append]
      simp only [List.length_singleton]
      omega
    have h1 : (on_file_callback chatId msgId data s fileExists).1 =
        { s with processedCallbacks :=
            s.processedCallbacks ++ [callback_fp chatId msgId data] } := by
      unfold on_file_callback
      rw [if_neg hc]
      simp only [if_neg hnogrow]
    have hmem : ({ s with processedCallbacks :=
        s.processedCallbacks ++ [callback_fp chatId msgId data] } :
          BotState).processedCallbacks.contains (callback_fp chatId msgId data) = true :=
      contains_append_singleton _ _
    rw [h1]
    refine ⟨hmem, ?_, ?_⟩
    · unfold on_file_callback
      rw [if_pos hmem]
    · unfold on_file_callback
      rw [if_pos hmem]

/-- C1 witness: a concrete duplicate file callback from the initial
state. -/
theorem C1_file_dedup_second_ack_only_witness :
    initialState.processedCallbacks.length < 200 ∧
    ((on_file_callback 1 2 "file:materials_contracts:x" initialState
        noFiles).1.processedCallbacks.contains
        (callback_fp 1 2 "file:materials_contracts:x") = true ∧
    (on_file_callback 1 2 "file:materials_contracts:x"
        (on_file_callback 1 2 "file:materials_contracts:x" initialState noFiles).1
        noFiles).1 =
      (on_file_callback 1 2 "file:materials_contracts:x" initialState noFiles).1 ∧
    (on_file_callback 1 2 "file:materials_contracts:x"
        (on_file_callback 1 2 "file:materials_contracts:x" initialState noFiles).1
        noFiles).2 = [Effect.ack]) :=
  ⟨by decide,
   C1_file_dedup_second_ack_only 1 2 "file:materials_contracts:x" initialState noFiles
     (by decide)⟩

/-- C1 counterexample: the claim covers the menu-navigation callback
handler, but that handler performs no fingerprint de-duplication:
delivering the concrete event menu:faq twice from the initial state
produces one render effect on the first delivery and a second render
effect (not an ack-only response) on the repeated delivery. -/
theorem C1_menu_not_deduped_counterexample :
    (dispatch_callback 1 2 3 "menu:faq" initialState noFiles).2.countP isRenderEffect = 1 ∧
    (dispatch_callback 1 2 3 "menu:faq"
        (dispatch_callback 1 2 3 "menu:faq" initialState noFiles).1 noFiles).2.countP
      isRenderEffect = 1 :=
  ⟨rfl, rfl⟩

/-- C9 (amended): at startup, a lock marker whose recorded pid answers
kill-0 aborts the process before the transport connection is attempted;
a marker whose pid no longer exists, or a malformed or absent marker, is
replaced by the current pid and startup proceeds to polling; but a
marker whose live pid cannot be signalled (permission denied) only warns
and proceeds, overwriting the marker. -/
theorem C9_single_instance_guard (e : LockEnv) (c : String) (pid : Int) :
    (e.lockContents = some c → pyParseInt c = some pid →
      e.alive pid = KillResult.ok →
      bot_startup e =
        Except.error ("ERROR: Another bot instance is already running (PID: "
          ++ toString pid ++ ")")) ∧
    (e.lockContents = some c → pyParseInt c = some pid →
      e.alive pid = KillResult.noSuchProcess →
      bot_startup e =
        Except.ok ({ e with lockContents := some (toString e.currentPid) }, true)) ∧
    (e.lockContents = some c → pyParseInt c = none →
      bot_startup e =
        Except.ok ({ e with lockContents := some (toString e.currentPid) }, true)) ∧
    (e.lockContents = none →
      bot_startup e =
        Except.ok ({ e with lockContents := some (toString e.currentPid) }, true)) ∧
    (e.lockContents = some c → pyParseInt c = some pid →
      e.alive pid = KillResult.permissionDenied →
      bot_startup e =
        Except.ok ({ e with lockContents := some (toString e.currentPid) }, true)) := by
  refine ⟨?_, ?_, ?_, ?_, ?_⟩
  · intro h1 h2 h3
    unfold bot_startup check_single_instance
    rw [h1]
    dsimp only
    rw [h2]
    dsimp only
    rw [h3]
  · intro h1 h2 h3
    unfold bot_startup check_single_instance
    rw [h1]
    dsimp only
    rw [h2]
    dsimp only
    rw [h3]
  · intro h1 h2
    unfold bot_startup check_single_instance
    rw [h1]
    dsimp only
    rw [h2]
  · intro h1
    unfold bot_startup check_single_instance
    rw [h1]
  · intro h1 h2 h3
    unfold bot_startup check_single_instance
    rw [h1]
    dsimp only
    rw [h2]
    dsimp only
    rw [h3]

/-- C9 witness: the abort, stale-marker and absent-marker branches at
concrete environments. -/
theorem C9_single_instance_guard_witness :
    envLive.lockContents = some "123" ∧ pyParseInt "123" = some 123 ∧
    envLive.alive 123 = KillResult.ok ∧
    bot_startup envLive =
      Except.error ("ERROR: Another bot instance is already running (PID: "
        ++ toString (123 : Int) ++ ")") ∧
    envStale.alive 123 = KillResult.noSuchProcess ∧
    bot_startup envStale =
      Except.ok ({ envStale with lockContents := some (toString envStale.currentPid) },
        true) :=
  ⟨rfl, by decide, rfl,
   (C9_single_instance_guard envLive "123" 123).1 rfl (by decide) rfl,
   rfl,
   (C9_single_instance_guard envStale "123" 123).2.1 rfl (by decide) rfl⟩

/-- C9 counterexample: the claim states that a marker recording a live
process id always aborts startup; in the environment where the recorded
pid 123 exists but kill-0 is denied (a live process of another user),
startup proceeds all the way to the transport connection instead of
aborting. -/
theorem C9_perm_denied_counterexample :
    envPermDenied.alive 123 = KillResult.permissionDenied ∧
    bot_startup envPermDenied =
      Except.ok ({ envPermDenied with lockContents := some "7" }, true) :=
  ⟨rfl, rfl⟩

end YangoBot
